import Mathlib

/-!
# Verification of the moex_iss paginated history fetcher

Shallow embedding of `src/moex_iss/client.py` (`MOEXClient.get_historical_data`,
lines 478-550) and of the batch-download boundary in `src/moex_iss/indices.py`
(`download_index`, `download_bond_indices`).

Modelling conventions:
* A decoded JSON response for one page request is a `Response`: the optional
  `'history'` section (columns + data rows) and the optional `'history.cursor'`
  section's `'data'` field.
* The network accessor (`MOEXClient._get_json_data` plus the underlying
  `requests` session) is a parameter `net : Nat → Except E Response` mapping the
  `'start'` query parameter of a page request to either a decoded response or a
  transport error (`requests.RequestException`, non-2xx status, malformed JSON).
  Within one fetch every request differs only in `'start'`; successive offsets
  are strictly increasing, so a function of the offset is an exact model of the
  requests issued by one call.
* Cells of a data row are kept as strings; their contents are irrelevant to the
  pagination logic.
* The Python `while` loop is embedded as the fuel-indexed `fetchLoop`; the fuel
  `(total - len df).toNat` supplied by `assembleHistory` is provably sufficient
  (see the fuel-stability theorem), so the embedding computes exactly what the
  unbounded Python loop computes.
* The final `TRADEDATE` step (client.py lines 541-543: `pd.to_datetime` on the
  column followed by `df.sort_values('TRADEDATE')`, pandas' default unstable
  `kind='quicksort'`) is a library call whose row-level behaviour on ties is
  not defined by this repository; it is abstracted as a parameter
  `finalize : List Row → List Row` of `get_historical_data`.  Theorems that
  need it assume only that it preserves the row count, which holds for any
  permutation (and `sort_values` returns a permutation of the rows).
-/

/-- One data row of a history page (cells as decoded JSON scalars). -/
abbrev Row := List String

/-- The `'history'` section of a decoded response: `columns` and `data`. -/
structure Page where
  columns : List String
  data : List Row
deriving DecidableEq, Repr

/-- A decoded JSON response to one page request.
`history = none` models a response without a `'history'` key;
`cursor = none` models a response without a `'history.cursor'` key
(in which case the code's `.get('history.cursor', {}).get('data', [[0,0,0]])`
falls back to `[[0, 0, 0]]`). -/
structure Response where
  history : Option Page
  cursor : Option (List (List Int))
deriving DecidableEq, Repr

/-- A warning record: the arguments interpolated into the
`"Нет данных для {security} за период {from_date} — {till_date}"` log line
(client.py lines 509-511). -/
structure Warning where
  security : String
  fromDate : String
  tillDate : String
deriving DecidableEq, Repr

/-- The accumulated DataFrame: schema plus ordered rows. -/
structure Table where
  columns : List String
  rows : List Row
deriving DecidableEq, Repr

/-- Observable outcome of one `get_historical_data` call: the `'start'`
offsets of the page requests issued (in order), the warnings logged, and the
returned table or the propagated transport error. -/
structure FetchOutcome (E : Type) where
  requests : List Nat
  warnings : List Warning
  result : Except E Table
deriving Repr

/-- The declared total record count, `cursor_data[0][1]`, read from the
cursor rows (client.py line 524). -/
def cursorTotal (cd : List (List Int)) : Int :=
  (cd.headD []).getD 1 0

/-- The rows the server delivers at offset `k` (empty when the request fails
or the response has no `'history'` section).  Used only to state theorems. -/
def pageDataAt {E : Type} (net : Nat → Except E Response) (k : Nat) : List Row :=
  match net k with
  | .ok r => (r.history.map Page.data).getD []
  | .error _ => []

/-- The pagination loop, client.py lines 527-538:

    while len(df) < total_records:
        params['start'] = len(df)
        more_data = self._get_json_data(url, params)
        if 'history' in more_data and more_data['history']['data']:
            df = pd.concat([df, more_df], ignore_index=True)
        else:
            break

`df` is the accumulated rows, `reqs` the offsets requested so far.  A transport
error aborts the call (the Python code has no `try` here).  The loop is
fuel-indexed; with fuel `≥ (total - len df).toNat` it behaves exactly like the
unbounded Python loop, because every continuing iteration appends at least one
row.  (Pages arrive with the same schema; `pd.concat` row-appends them.) -/
def fetchLoop {E : Type} (net : Nat → Except E Response) (total : Int) :
    Nat → List Row → List Nat → List Nat × Except E (List Row)
  | 0, df, reqs => (reqs, .ok df)
  | fuel + 1, df, reqs =>
    if (df.length : Int) < total then
      match net df.length with
      | .error e => (reqs ++ [df.length], .error e)
      | .ok more =>
        match more.history with
        | none => (reqs ++ [df.length], .ok df)
        | some p =>
          if p.data.isEmpty then (reqs ++ [df.length], .ok df)
          else fetchLoop net total fuel (df ++ p.data) (reqs ++ [df.length])
    else (reqs, .ok df)

/-- Pagination assembly, client.py lines 505-538: first request at offset 0,
empty-first-page handling (warning + empty DataFrame), cursor-total extraction
with the `[[0, 0, 0]]` fallback, then the pagination loop. -/
def assembleHistory {E : Type} (net : Nat → Except E Response)
    (security fromDate tillDate : String) : FetchOutcome E :=
  match net 0 with
  | .error e => ⟨[0], [], .error e⟩
  | .ok data =>
    match data.history with
    | none => ⟨[0], [⟨security, fromDate, tillDate⟩], .ok ⟨[], []⟩⟩
    | some page =>
      if page.data.isEmpty then
        ⟨[0], [⟨security, fromDate, tillDate⟩], .ok ⟨[], []⟩⟩
      else
        let cd := data.cursor.getD [[0, 0, 0]]
        if cd.isEmpty then
          ⟨[0], [], .ok ⟨page.columns, page.data⟩⟩
        else
          let total := cursorTotal cd
          let lr := fetchLoop net total (total - (page.data.length : Int)).toNat
                      page.data [0]
          ⟨lr.1, [], lr.2.map (fun rows => ⟨page.columns, rows⟩)⟩

/-- The method `MOEXClient.get_historical_data`, client.py lines 505-550: assembly
followed by the `TRADEDATE` parse-and-sort step (lines 541-543), the latter
abstracted as `finalize` (see the module docstring). -/
def get_historical_data {E : Type} (finalize : List Row → List Row)
    (net : Nat → Except E Response)
    (security fromDate tillDate : String) : FetchOutcome E :=
  let o := assembleHistory net security fromDate tillDate
  { o with
    result := o.result.map (fun t =>
      if "TRADEDATE" ∈ t.columns then ⟨t.columns, finalize t.rows⟩ else t) }

/-! ## Date defaulting and normalization (client.py lines 478-502)

The code fills missing dates with `datetime.now() - timedelta(days=30)` and
`datetime.now()`, converts `datetime` values with `.strftime('%Y-%m-%d')`, and
passes strings through unchanged.  `datetime.now()` and the `timedelta`
subtraction are Python-stdlib calls outside this repository; they are modelled
as the two datetime parameters `now` and `nowMinus30` of `buildParams`.  A
Python `datetime` restricted to what `%Y-%m-%d` observes is a year/month/day
triple; `PyDatetime.valid` records the bounds the stdlib guarantees (year
rendered as four digits, month 1-12, day 1-31). -/

/-- The date part of a Python `datetime` value. -/
structure PyDatetime where
  year : Nat
  month : Nat
  day : Nat
deriving DecidableEq, Repr

/-- Bounds guaranteed for any `datetime` whose `%Y` rendering is four digits:
Python allows years 1..9999; years below 1000 render platform-dependently, so
the development restricts to 1000..9999. -/
def PyDatetime.valid (d : PyDatetime) : Prop :=
  1000 ≤ d.year ∧ d.year ≤ 9999 ∧ 1 ≤ d.month ∧ d.month ≤ 12 ∧
    1 ≤ d.day ∧ d.day ≤ 31

instance (d : PyDatetime) : Decidable d.valid := by
  unfold PyDatetime.valid; infer_instance

/-- Two-digit zero-padded decimal rendering (`%m`, `%d` for values ≤ 99). -/
def twoDigits (n : Nat) : List Char :=
  [Nat.digitChar (n / 10 % 10), Nat.digitChar (n % 10)]

/-- Four-digit decimal rendering (`%Y` for 1000 ≤ year ≤ 9999). -/
def fourDigits (n : Nat) : List Char :=
  [Nat.digitChar (n / 1000 % 10), Nat.digitChar (n / 100 % 10),
   Nat.digitChar (n / 10 % 10), Nat.digitChar (n % 10)]

/-- Character sequence produced by `.strftime('%Y-%m-%d')`. -/
def ymdChars (d : PyDatetime) : List Char :=
  fourDigits d.year ++ '-' :: (twoDigits d.month ++ '-' :: twoDigits d.day)

/-- Rendering via `.strftime('%Y-%m-%d')`. -/
def strftimeYMD (d : PyDatetime) : String :=
  String.mk (ymdChars d)

/-- Recognizer for canonical `YYYY-MM-DD` strings (on the character list). -/
def isYMDChars : List Char → Bool
  | [y1, y2, y3, y4, s1, m1, m2, s2, d1, d2] =>
    y1.isDigit && y2.isDigit && y3.isDigit && y4.isDigit && s1 == '-' &&
      m1.isDigit && m2.isDigit && s2 == '-' && d1.isDigit && d2.isDigit
  | _ => false

/-- Recognizer for canonical `YYYY-MM-DD` strings. -/
def isYMDString (s : String) : Bool :=
  isYMDChars s.data

/-- A caller-supplied date argument: either a string or a `datetime` value
(the two representations the `Union[str, datetime]` signature admits). -/
inductive DateArg where
  | str (s : String)
  | dt (d : PyDatetime)
deriving DecidableEq, Repr

/-- Lines 479-488: default-fill an omitted date with the given `datetime`,
then convert `datetime` values via `strftime('%Y-%m-%d')`; strings pass
through unchanged (`isinstance(x, datetime)` is false for `str`). -/
def resolveDate (arg : Option DateArg) (defaultDT : PyDatetime) : String :=
  match arg with
  | none => strftimeYMD defaultDT
  | some (.str s) => s
  | some (.dt d) => strftimeYMD d

/-- The query parameters assembled at lines 497-502. -/
structure RequestParams where
  fromP : String
  tillP : String
  interval : Int
  start : Nat
deriving DecidableEq, Repr

/-- Lines 478-502: resolve both dates and build the request parameters.
`now` models `datetime.now()`; `nowMinus30` models
`datetime.now() - timedelta(days=30)` (stdlib date arithmetic, outside the
repository). -/
def buildParams (now nowMinus30 : PyDatetime)
    (fromDate tillDate : Option DateArg) (interval : Int) : RequestParams :=
  ⟨resolveDate fromDate nowMinus30, resolveDate tillDate now, interval, 0⟩

/-! ## Batch download boundary (indices.py) -/

/-- The function `download_index` (indices.py lines 430-462), abstracted over the outcome
of the `client.get_index_history` call inside its `try` block: a transport
error raised by the fetch is caught by the `except` clause and turned into
`None`; an empty table is logged and turned into `None`; otherwise the
DataFrame is saved to CSV (file I/O, not modelled) and returned. -/
def download_index {E : Type} (fetchResult : Except E Table) : Option Table :=
  match fetchResult with
  | .error _ => none
  | .ok df => if df.rows.isEmpty then none else some df

/-- The per-index loop of `download_bond_indices` (indices.py lines 506-514)
and `download_equity_indices` (identical body): for each requested code call
`download_index` and record `df is not None` in the result mapping, then
continue with the next code. -/
def download_bond_indices {E : Type} (codes : List String)
    (fetch : String → Except E Table) : List (String × Bool) :=
  codes.map (fun c => (c, (download_index (fetch c)).isSome))

/-! ## Concrete accessors for the scenarios named in the specification -/

/-- Scenario B server: cursor declares total 250; pages of 100, 100 and 50
rows at offsets 0, 100 and 200 (non-empty pages at every other offset, which
the fetch never requests). -/
def scenarioBNet : Nat → Except Unit Response := fun k =>
  if k = 0 then
    .ok ⟨some ⟨["CLOSE"], List.replicate 100 ["r"]⟩, some [[0, 250, 100]]⟩
  else if k = 100 then
    .ok ⟨some ⟨["CLOSE"], List.replicate 100 ["r"]⟩, none⟩
  else if k = 200 then
    .ok ⟨some ⟨["CLOSE"], List.replicate 50 ["r"]⟩, none⟩
  else
    .ok ⟨some ⟨["CLOSE"], [["r"]]⟩, none⟩

/-- Scenario C server: cursor declares total 300; pages of 100 and 100 rows
at offsets 0 and 100; zero rows from offset 200 on. -/
def scenarioCNet : Nat → Except Unit Response := fun k =>
  if k = 0 then
    .ok ⟨some ⟨["CLOSE"], List.replicate 100 ["r"]⟩, some [[0, 300, 100]]⟩
  else if k = 100 then
    .ok ⟨some ⟨["CLOSE"], List.replicate 100 ["r"]⟩, none⟩
  else
    .ok ⟨some ⟨["CLOSE"], []⟩, none⟩

/-- Scenario E server: a good first page declaring total 250, then a
transport error on every follow-up request. -/
def scenarioENet : Nat → Except Unit Response := fun k =>
  if k = 0 then
    .ok ⟨some ⟨["CLOSE"], List.replicate 100 ["r"]⟩, some [[0, 250, 100]]⟩
  else .error ()

/-- A server whose very first page request fails with a transport error. -/
def errNet : Nat → Except Unit Response := fun _ => .error ()

/-- Scenario A server: first page present but with zero data rows. -/
def emptyFirstPageNet : Nat → Except Unit Response := fun _ =>
  .ok ⟨some ⟨["BOARDID"], []⟩, none⟩

/-- Scenario D server: non-empty first page, no `'history.cursor'` section. -/
def noCursorNet : Nat → Except Unit Response := fun _ =>
  .ok ⟨some ⟨["CLOSE"], [["a"], ["b"]]⟩, none⟩

/-- A server declaring total 0 alongside a non-empty first page. -/
def zeroTotalNet : Nat → Except Unit Response := fun _ =>
  .ok ⟨some ⟨["CLOSE"], [["a"], ["b"]]⟩, some [[0, 0, 100]]⟩

/-- A server that declares total 250 but answers every offset with a page of
100 rows, so the page at offset 200 overshoots the remaining deficit of 50. -/
def overshootNet : Nat → Except Unit Response := fun k =>
  if k = 0 then
    .ok ⟨some ⟨["CLOSE"], List.replicate 100 ["r"]⟩, some [[0, 250, 100]]⟩
  else
    .ok ⟨some ⟨["CLOSE"], List.replicate 100 ["r"]⟩, none⟩

/-- A batch fetch collaborator for the C9 witness: the code `"BAD"` fails
with a transport error, every other code succeeds with a one-row table. -/
def batchFetch : String → Except Unit Table := fun c =>
  if c = "BAD" then .error () else .ok ⟨["CLOSE"], [["1"]]⟩

/-- The request offsets of a call do not depend on the `TRADEDATE` step. -/
theorem get_historical_data_requests {E : Type} (finalize : List Row → List Row)
    (net : Nat → Except E Response) (security fromDate tillDate : String) :
    (get_historical_data finalize net security fromDate tillDate).requests =
      (assembleHistory net security fromDate tillDate).requests := rfl

/-- Nor do the warnings. -/
theorem get_historical_data_warnings {E : Type} (finalize : List Row → List Row)
    (net : Nat → Except E Response) (security fromDate tillDate : String) :
    (get_historical_data finalize net security fromDate tillDate).warnings =
      (assembleHistory net security fromDate tillDate).warnings := rfl

/-! ## Loop lemmas -/


/-- The loop's result is independent of the fuel once the fuel is at least the
remaining deficit `(total - len df).toNat`: every continuing iteration appends
a non-empty page, so at most that many iterations occur. -/
theorem fetchLoop_fuel_mono {E : Type} (net : Nat → Except E Response)
    (total : Int) :
    ∀ f g df reqs, (total - (df.length : Int)).toNat ≤ f →
      (total - (df.length : Int)).toNat ≤ g →
      fetchLoop net total f df reqs = fetchLoop net total g df reqs := by
  intro f
  induction f with
  | zero =>
    intro g df reqs hf _hg
    have h : ¬ ((df.length : Int) < total) := by omega
    cases g with
    | zero => rfl
    | succ g' => simp [fetchLoop, h]
  | succ f' ih =>
    intro g df reqs hf hg
    by_cases hguard : (df.length : Int) < total
    · cases g with
      | zero => omega
      | succ g' =>
        simp only [fetchLoop, if_pos hguard]
        cases hnet : net df.length with
        | error e => simp only [hnet]
        | ok more =>
          cases hh : more.history with
          | none => simp only [hnet, hh]
          | some p =>
            cases hpd : p.data with
            | nil => simp [hnet, hh, hpd]
            | cons a l =>
              simp only [hnet, hh, hpd, List.isEmpty_cons, Bool.false_eq_true,
                if_false]
              exact ih g' (df ++ a :: l) (reqs ++ [df.length])
                (by simp only [List.length_append, List.length_cons]; omega)
                (by simp only [List.length_append, List.length_cons]; omega)
    · cases g with
      | zero => simp [fetchLoop, hguard]
      | succ g' => simp [fetchLoop, hguard]

/-- If the loop returns a table (no transport error), then every offset in the
final request list was either already requested or answered successfully by
the accessor. -/
theorem fetchLoop_ok_requests {E : Type} (net : Nat → Except E Response)
    (total : Int) :
    ∀ fuel df reqs reqs' rows,
      fetchLoop net total fuel df reqs = (reqs', .ok rows) →
      ∀ k ∈ reqs', k ∈ reqs ∨ ∃ r, net k = .ok r := by
  intro fuel
  induction fuel with
  | zero =>
    intro df reqs reqs' rows h k hk
    simp only [fetchLoop, Prod.mk.injEq, Except.ok.injEq] at h
    exact .inl (h.1 ▸ hk)
  | succ f' ih =>
    intro df reqs reqs' rows h k hk
    simp only [fetchLoop] at h
    by_cases hguard : (df.length : Int) < total
    · rw [if_pos hguard] at h
      cases hnet : net df.length with
      | error e => rw [hnet] at h; simp at h
      | ok more =>
        cases hh : more.history with
        | none =>
          simp only [hnet, hh, Prod.mk.injEq, Except.ok.injEq] at h
          rcases List.mem_append.mp (h.1 ▸ hk) with hk' | hk'
          · exact .inl hk'
          · exact .inr ⟨more, (List.mem_singleton.mp hk') ▸ hnet⟩
        | some p =>
          cases hpd : p.data with
          | nil =>
            simp only [hnet, hh, hpd, List.isEmpty_nil, if_true,
              Prod.mk.injEq, Except.ok.injEq] at h
            rcases List.mem_append.mp (h.1 ▸ hk) with hk' | hk'
            · exact .inl hk'
            · exact .inr ⟨more, (List.mem_singleton.mp hk') ▸ hnet⟩
          | cons a l =>
            simp only [hnet, hh, hpd, List.isEmpty_cons, Bool.false_eq_true,
              if_false] at h
            rcases ih _ _ _ _ h k hk with hk' | hk'
            · rcases List.mem_append.mp hk' with hk'' | hk''
              · exact .inl hk''
              · exact .inr ⟨more, (List.mem_singleton.mp hk'') ▸ hnet⟩
            · exact .inr hk'
    · rw [if_neg hguard] at h
      simp only [Prod.mk.injEq, Except.ok.injEq] at h
      exact .inl (h.1 ▸ hk)

/-- Dichotomy for a successfully completed loop: either the accumulated row
count reached the declared total, or the loop broke early on a page with no
rows (equivalently, no `'history'` section) at the offset it stopped at. -/
theorem fetchLoop_ok_bound {E : Type} (net : Nat → Except E Response)
    (total : Int) :
    ∀ fuel df reqs reqs' rows,
      (total - (df.length : Int)).toNat ≤ fuel →
      fetchLoop net total fuel df reqs = (reqs', .ok rows) →
      total ≤ (rows.length : Int) ∨
        ((rows.length : Int) < total ∧ pageDataAt net rows.length = []) := by
  intro fuel
  induction fuel with
  | zero =>
    intro df reqs reqs' rows hf h
    simp only [fetchLoop, Prod.mk.injEq, Except.ok.injEq] at h
    left
    rw [← h.2]
    omega
  | succ f' ih =>
    intro df reqs reqs' rows hf h
    simp only [fetchLoop] at h
    by_cases hguard : (df.length : Int) < total
    · rw [if_pos hguard] at h
      cases hnet : net df.length with
      | error e => rw [hnet] at h; simp at h
      | ok more =>
        cases hh : more.history with
        | none =>
          simp only [hnet, hh, Prod.mk.injEq, Except.ok.injEq] at h
          right
          refine ⟨by rw [← h.2]; exact hguard, ?_⟩
          rw [← h.2]
          simp [pageDataAt, hnet, hh]
        | some p =>
          cases hpd : p.data with
          | nil =>
            simp only [hnet, hh, hpd, List.isEmpty_nil, if_true,
              Prod.mk.injEq, Except.ok.injEq] at h
            right
            refine ⟨by rw [← h.2]; exact hguard, ?_⟩
            rw [← h.2]
            simp [pageDataAt, hnet, hh, hpd]
          | cons a l =>
            simp only [hnet, hh, hpd, List.isEmpty_cons, Bool.false_eq_true,
              if_false] at h
            exact ih _ _ _ _
              (by simp only [List.length_append, List.length_cons]; omega) h
    · rw [if_neg hguard] at h
      simp only [Prod.mk.injEq, Except.ok.injEq] at h
      left
      rw [← h.2]
      omega

/-- Unfolding of the assembly when the first page is non-empty and the cursor
section declares a total: the outcome is exactly the pagination loop started
from the first page's rows with the single request `[0]` already issued. -/
theorem assembleHistory_eq_loop {E : Type} (net : Nat → Except E Response)
    (security fromDate tillDate : String) (r₀ : Response) (p₀ : Page)
    (cd : List (List Int))
    (h₀ : net 0 = .ok r₀) (hh : r₀.history = some p₀) (hne : p₀.data ≠ [])
    (hc : r₀.cursor = some cd) (hcd : cd ≠ []) :
    assembleHistory net security fromDate tillDate =
      ⟨(fetchLoop net (cursorTotal cd)
          (cursorTotal cd - (p₀.data.length : Int)).toNat p₀.data [0]).1, [],
       (fetchLoop net (cursorTotal cd)
          (cursorTotal cd - (p₀.data.length : Int)).toNat p₀.data [0]).2.map
         (fun rows => ⟨p₀.columns, rows⟩)⟩ := by
  have hpe : p₀.data.isEmpty = false := by
    cases hx : p₀.data with
    | nil => exact absurd hx hne
    | cons a l => rfl
  have hcde : cd.isEmpty = false := by
    cases hx : cd with
    | nil => exact absurd hx hcd
    | cons a l => rfl
  simp only [assembleHistory, h₀, hh, hpe, hc, Option.getD_some, hcde,
    Bool.false_eq_true, if_false]

/-- A returned table of `get_historical_data` is the assembled table, with the
rows passed through the `TRADEDATE` step exactly when the schema contains the
trade-date column. -/
theorem get_historical_data_result_ok {E : Type}
    (finalize : List Row → List Row) (net : Nat → Except E Response)
    (security fromDate tillDate : String) (tbl : Table) :
    (get_historical_data finalize net security fromDate tillDate).result
        = .ok tbl ↔
      ∃ t₀, (assembleHistory net security fromDate tillDate).result = .ok t₀ ∧
        tbl = if "TRADEDATE" ∈ t₀.columns then ⟨t₀.columns, finalize t₀.rows⟩
              else t₀ := by
  unfold get_historical_data
  cases h : (assembleHistory net security fromDate tillDate).result with
  | error e => simp [h, Except.map]
  | ok t₀ => simp [h, Except.map, eq_comm]

/-- Full trace of the loop when the accessor answers every positive offset
with a non-empty page: the loop requests successive offsets, each equal to the
row count accumulated so far, appends every returned page in order, keeps
every request strictly below the declared total, and stops with at least
`total` rows. -/
theorem fetchLoop_nonempty_trace {E : Type} (net : Nat → Except E Response)
    (total : Int)
    (hall : ∀ k, 0 < k →
      ∃ r p, net k = .ok r ∧ r.history = some p ∧ p.data ≠ []) :
    ∀ fuel df reqs, (total - (df.length : Int)).toNat ≤ fuel → df ≠ [] →
      ∃ ext,
        fetchLoop net total fuel df reqs =
          (reqs ++ ext, .ok (df ++ (ext.map (pageDataAt net)).flatten)) ∧
        (∀ x ∈ ext.head?, x = df.length) ∧
        List.Chain' (fun a b => b = a + (pageDataAt net a).length) ext ∧
        (∀ x ∈ ext, 0 < x ∧ (x : Int) < total) ∧
        total ≤ ((df ++ (ext.map (pageDataAt net)).flatten).length : Int) := by
  intro fuel
  induction fuel with
  | zero =>
    intro df reqs hf _hdf
    refine ⟨[], by simp [fetchLoop], by simp, by simp, by simp, ?_⟩
    simp only [List.map_nil, List.flatten_nil, List.append_nil]
    omega
  | succ f' ih =>
    intro df reqs hf hdf
    by_cases hguard : (df.length : Int) < total
    · have hpos : 0 < df.length := List.length_pos.mpr hdf
      obtain ⟨r, p, hnet, hh, hpne⟩ := hall df.length hpos
      have hpe : p.data.isEmpty = false := by
        cases hx : p.data with
        | nil => exact absurd hx hpne
        | cons a l => rfl
      have hpda : pageDataAt net df.length = p.data := by
        simp [pageDataAt, hnet, hh]
      have hplen : 0 < p.data.length := List.length_pos.mpr hpne
      obtain ⟨ext, heq, hhead, hchain, hmem, hbound⟩ :=
        ih (df ++ p.data) (reqs ++ [df.length])
          (by simp only [List.length_append]; omega)
          (fun hcontra => hdf (List.append_eq_nil.mp hcontra).1)
      refine ⟨df.length :: ext, ?_, ?_, ?_, ?_, ?_⟩
      · simp only [fetchLoop, if_pos hguard, hnet, hh, hpe,
          Bool.false_eq_true, if_false]
        rw [heq]
        simp [hpda, List.append_assoc]
      · intro x hx
        simp only [List.head?_cons, Option.mem_some_iff] at hx
        omega
      · cases hext : ext with
        | nil => simp
        | cons b t =>
          rw [List.chain'_cons]
          constructor
          · have hb : b = (df ++ p.data).length := by
              apply hhead
              rw [hext]
              simp
            rw [hpda, hb]
            simp [List.length_append]
          · rw [← hext]
            exact hchain
      · intro x hx
        rcases List.mem_cons.mp hx with rfl | hx'
        · exact ⟨hpos, hguard⟩
        · exact hmem x hx'
      · simp only [List.map_cons, List.flatten_cons, hpda,
          ← List.append_assoc]
        exact hbound
    · refine ⟨[], by simp [fetchLoop, hguard], by simp, by simp, by simp, ?_⟩
      simp only [List.map_nil, List.flatten_nil, List.append_nil]
      omega

/-! ## Date rendering lemmas -/

/-- Decimal digit characters are digits. -/
theorem digitChar_isDigit (k : Nat) (h : k < 10) :
    (Nat.digitChar k).isDigit = true := by
  interval_cases k <;> rfl

/-- Output of `strftime('%Y-%m-%d')` is always in canonical `YYYY-MM-DD` shape. -/
theorem isYMDString_strftimeYMD (d : PyDatetime) :
    isYMDString (strftimeYMD d) = true := by
  have h10 : ∀ n : Nat, (Nat.digitChar (n % 10)).isDigit = true :=
    fun n => digitChar_isDigit _ (Nat.mod_lt _ (by omega))
  simp [isYMDString, strftimeYMD, ymdChars, fourDigits, twoDigits, isYMDChars,
    h10]

/-! ## Claim theorems -/

/-- Claim C10: for every (finite or infinite) sequence of page responses
supplied by the network accessor, the pagination loop terminates: each
continuing iteration appends at least one row, strictly increasing the
accumulated row count toward the fixed declared total, and a zero-row or
missing-history page breaks out immediately — so the loop's value is already
fixed after at most `(total - len df).toNat` iterations, and giving it any
larger amount of fuel does not change it. -/
theorem c10_pagination_terminates {E : Type} (net : Nat → Except E Response)
    (total : Int) (df : List Row) (reqs : List Nat) (fuel : Nat)
    (h : (total - (df.length : Int)).toNat ≤ fuel) :
    fetchLoop net total fuel df reqs
      = fetchLoop net total (total - (df.length : Int)).toNat df reqs :=
  fetchLoop_fuel_mono net total fuel _ df reqs h le_rfl

/-- Witness for C10 at a concrete server and state: 1000 units of fuel
compute the same outcome as the deficit bound 150. -/
theorem c10_pagination_terminates_witness :
    fetchLoop scenarioBNet 250 1000 (List.replicate 100 ["r"]) [0]
      = fetchLoop scenarioBNet 250
          ((250 - ((List.replicate 100 (["r"] : Row)).length : Int)).toNat)
          (List.replicate 100 ["r"]) [0] :=
  c10_pagination_terminates scenarioBNet 250 (List.replicate 100 ["r"]) [0]
    1000 (by decide)

/-- Claim C6: when the declared total exceeds the rows available and a
subsequent page request returns zero rows (or a response with no history
section), the pagination loop stops early at that request, the table is
exactly the rows accumulated so far, and no error is raised.  (See the
witness for the concrete 300 / 100+100+0 instance from Scenario C.) -/
theorem c6_early_termination_on_empty_page {E : Type}
    (net : Nat → Except E Response) (total : Int) (fuel : Nat)
    (df : List Row) (reqs : List Nat) (r : Response)
    (hguard : (df.length : Int) < total)
    (hnet : net df.length = .ok r)
    (hempty : r.history = none ∨ ∃ p, r.history = some p ∧ p.data = []) :
    fetchLoop net total (fuel + 1) df reqs = (reqs ++ [df.length], .ok df) := by
  rcases hempty with hh | ⟨p, hh, hpd⟩
  · simp [fetchLoop, if_pos hguard, hnet, hh]
  · simp [fetchLoop, if_pos hguard, hnet, hh, hpd]

set_option maxRecDepth 4000 in
/-- Witness for C6, Scenario C: declared total 300, pages of 100, 100, 0 at
offsets 0, 100, 200 — the loop stops at offset 200 keeping the 200
accumulated rows, and the whole fetch returns them with no error. -/
theorem c6_early_termination_on_empty_page_witness :
    fetchLoop scenarioCNet 300 (99 + 1) (List.replicate 200 ["r"]) [0, 100]
      = ([0, 100, 200], .ok (List.replicate 200 ["r"])) ∧
    assembleHistory scenarioCNet "RGBI" "2024-01-01" "2024-12-31"
      = ⟨[0, 100, 200], [], .ok ⟨["CLOSE"], List.replicate 200 ["r"]⟩⟩ := by
  constructor
  · have h := c6_early_termination_on_empty_page scenarioCNet 300 99
      (List.replicate 200 ["r"]) [0, 100] ⟨some ⟨["CLOSE"], []⟩, none⟩
      (by decide) rfl (.inr ⟨⟨["CLOSE"], []⟩, rfl, rfl⟩)
    simpa using h
  · rfl

/-- Claim C5: if the first page response has no history section or zero data
rows, the fetch returns the empty table (not an error), logs exactly one
warning carrying the security code and the requested date range, and issues
no further page requests. -/
theorem c5_empty_first_page_returns_empty {E : Type}
    (finalize : List Row → List Row) (net : Nat → Except E Response)
    (security fromDate tillDate : String) (r₀ : Response)
    (h₀ : net 0 = .ok r₀)
    (hempty : r₀.history = none ∨ ∃ p, r₀.history = some p ∧ p.data = []) :
    get_historical_data finalize net security fromDate tillDate
      = ⟨[0], [⟨security, fromDate, tillDate⟩], .ok ⟨[], []⟩⟩ := by
  rcases hempty with hh | ⟨p, hh, hpd⟩
  · simp [get_historical_data, assembleHistory, h₀, hh, Except.map]
  · simp [get_historical_data, assembleHistory, h₀, hh, hpd, Except.map]

/-- Witness for C5, Scenario A: `history.data = []` on the first page yields
the empty table, the warning with security and date range, and the single
request at offset 0. -/
theorem c5_empty_first_page_returns_empty_witness :
    get_historical_data id emptyFirstPageNet "IMOEX" "2024-01-01" "2024-02-01"
      = ⟨[0], [⟨"IMOEX", "2024-01-01", "2024-02-01"⟩], .ok ⟨[], []⟩⟩ :=
  c5_empty_first_page_returns_empty id emptyFirstPageNet "IMOEX" "2024-01-01"
    "2024-02-01" ⟨some ⟨["BOARDID"], []⟩, none⟩ rfl
    (.inr ⟨⟨["BOARDID"], []⟩, rfl, rfl⟩)

/-- Claim C1: in a fetch session whose first page is non-empty, whose cursor
declares a total `T = cursorTotal cd`, and in which every subsequent page
request returns a non-empty page, `get_historical_data` requests offset 0
first, issues each follow-up request at the offset equal to the row count
accumulated so far (the chain condition: the next offset is the previous one
plus the size of the page returned there), appends all returned pages in
request order, issues follow-up requests only while the accumulated count is
below `T`, and stops with at least `T` rows.  (The Scenario B instance —
`T = 250`, pages 100/100/50, exactly three requests, exactly 250 rows — is
checked in the witness.) -/
theorem c1_pagination_offsets_and_stop {E : Type}
    (finalize : List Row → List Row) (net : Nat → Except E Response)
    (security fromDate tillDate : String) (r₀ : Response) (p₀ : Page)
    (cd : List (List Int))
    (h₀ : net 0 = .ok r₀) (hh : r₀.history = some p₀) (hne : p₀.data ≠ [])
    (hc : r₀.cursor = some cd) (hcd : cd ≠ [])
    (hall : ∀ k, 0 < k →
      ∃ r p, net k = .ok r ∧ r.history = some p ∧ p.data ≠ []) :
    ∃ ext,
      (get_historical_data finalize net security fromDate tillDate).requests
          = 0 :: ext ∧
      (assembleHistory net security fromDate tillDate).result =
        .ok ⟨p₀.columns, (((0 :: ext).map (pageDataAt net)).flatten)⟩ ∧
      List.Chain' (fun a b => b = a + (pageDataAt net a).length) (0 :: ext) ∧
      (∀ x ∈ (0 : Nat) :: ext, 0 < x → (x : Int) < cursorTotal cd) ∧
      cursorTotal cd
        ≤ (((((0 : Nat) :: ext).map (pageDataAt net)).flatten).length : Int) := by
  have hA := assembleHistory_eq_loop net security fromDate tillDate r₀ p₀ cd
    h₀ hh hne hc hcd
  obtain ⟨ext, heq, hhead, hchain, hmem, hbound⟩ :=
    fetchLoop_nonempty_trace net (cursorTotal cd) hall
      ((cursorTotal cd - (p₀.data.length : Int)).toNat) p₀.data [0] le_rfl hne
  have hpda0 : pageDataAt net 0 = p₀.data := by
    simp [pageDataAt, h₀, hh]
  refine ⟨ext, ?_, ?_, ?_, ?_, ?_⟩
  · rw [get_historical_data_requests, hA]
    rw [heq]
    simp
  · rw [hA]
    rw [heq]
    simp [hpda0, Except.map]
  · cases hext : ext with
    | nil => simp
    | cons b t =>
      rw [List.chain'_cons]
      refine ⟨?_, hext ▸ hchain⟩
      have hb : b = p₀.data.length := by
        apply hhead
        rw [hext]
        simp
      rw [hpda0, hb]
      simp
  · intro x hx hxpos
    rcases List.mem_cons.mp hx with rfl | hx'
    · omega
    · exact (hmem x hx').2
  · simp only [List.map_cons, List.flatten_cons, hpda0]
    simpa using hbound

set_option maxRecDepth 8000 in
/-- Witness for C1, Scenario B: total 250, pages 100/100/50 at offsets
0/100/200 — exactly three requests `[0, 100, 200]` and exactly 250 rows. -/
theorem c1_pagination_offsets_and_stop_witness :
    (∃ ext,
      (get_historical_data id scenarioBNet "IMOEX" "2024-01-01"
          "2024-12-31").requests = 0 :: ext ∧
      (assembleHistory scenarioBNet "IMOEX" "2024-01-01" "2024-12-31").result =
        .ok ⟨["CLOSE"], (((0 :: ext).map (pageDataAt scenarioBNet)).flatten)⟩ ∧
      List.Chain'
        (fun a b => b = a + (pageDataAt scenarioBNet a).length) (0 :: ext) ∧
      (∀ x ∈ (0 : Nat) :: ext, 0 < x →
        (x : Int) < cursorTotal [[0, 250, 100]]) ∧
      cursorTotal [[0, 250, 100]]
        ≤ (((((0 : Nat) :: ext).map
            (pageDataAt scenarioBNet)).flatten).length : Int)) ∧
    (assembleHistory scenarioBNet "IMOEX" "2024-01-01" "2024-12-31").requests
      = [0, 100, 200] ∧
    (assembleHistory scenarioBNet "IMOEX" "2024-01-01" "2024-12-31").result
      = .ok ⟨["CLOSE"], List.replicate 250 ["r"]⟩ := by
  refine ⟨c1_pagination_offsets_and_stop id scenarioBNet "IMOEX" "2024-01-01"
    "2024-12-31" ⟨some ⟨["CLOSE"], List.replicate 100 ["r"]⟩,
      some [[0, 250, 100]]⟩ ⟨["CLOSE"], List.replicate 100 ["r"]⟩
    [[0, 250, 100]] rfl rfl ?_ rfl (by decide) ?_, rfl, rfl⟩
  · intro h
    have := congrArg List.length h
    simp at this
  · intro k hk
    by_cases h1 : k = 100
    · subst h1
      exact ⟨_, _, rfl, rfl, by decide⟩
    · by_cases h2 : k = 200
      · subst h2
        exact ⟨_, _, rfl, rfl, by decide⟩
      · refine ⟨⟨some ⟨["CLOSE"], [["r"]]⟩, none⟩, ⟨["CLOSE"], [["r"]]⟩,
          ?_, rfl, by decide⟩
        unfold scenarioBNet
        rw [if_neg (by omega), if_neg h1, if_neg h2]

set_option maxRecDepth 8000 in
/-- Counterexample to claim C2: declared total 250 but every page carries 100
rows, so the page at offset 200 overshoots the remaining deficit of 50.  The
fetch completes without transport error, terminates without any zero-row
page, logs no warning — and the finalized row count is 300, which neither
equals nor is below the declared total 250.  This refutes the claim that the
finalized row count equals the last known cursor total whenever no early
termination occurred. -/
theorem c2_row_count_counterexample :
    (get_historical_data id overshootNet "IMOEX" "2024-01-01"
        "2024-12-31").result
      = .ok ⟨["CLOSE"], List.replicate 300 ["r"]⟩ ∧
    (get_historical_data id overshootNet "IMOEX" "2024-01-01"
        "2024-12-31").warnings = [] ∧
    cursorTotal [[0, 250, 100]] = 250 ∧
    ¬ (((300 : Int) = 250) ∨ ((300 : Int) < 250)) :=
  ⟨rfl, rfl, rfl, by decide⟩

/-- Claim C2 as amended: for every fetch that completes without a transport
error, with a non-empty first page and a declared cursor total, no warning is
logged, and the finalized table's row count is at least the declared total
unless the loop terminated early on a zero-row (or missing-history) page, in
which case the count is strictly below the declared total and the termination
is silent.  (A page that overshoots the remaining deficit makes the count
strictly exceed the total, as the counterexample shows.) -/
theorem c2_row_count_invariant {E : Type} (finalize : List Row → List Row)
    (net : Nat → Except E Response) (security fromDate tillDate : String)
    (r₀ : Response) (p₀ : Page) (cd : List (List Int))
    (hfin : ∀ rs, (finalize rs).length = rs.length)
    (h₀ : net 0 = .ok r₀) (hh : r₀.history = some p₀) (hne : p₀.data ≠ [])
    (hc : r₀.cursor = some cd) (hcd : cd ≠ []) :
    (get_historical_data finalize net security fromDate tillDate).warnings
        = [] ∧
    ∀ tbl,
      (get_historical_data finalize net security fromDate tillDate).result
          = .ok tbl →
      cursorTotal cd ≤ (tbl.rows.length : Int) ∨
        ((tbl.rows.length : Int) < cursorTotal cd ∧
          pageDataAt net tbl.rows.length = []) := by
  have hA := assembleHistory_eq_loop net security fromDate tillDate r₀ p₀ cd
    h₀ hh hne hc hcd
  rcases hlr : fetchLoop net (cursorTotal cd)
      ((cursorTotal cd - (p₀.data.length : Int)).toNat) p₀.data [0]
    with ⟨reqs', res'⟩
  rw [hlr] at hA
  constructor
  · rw [get_historical_data_warnings, hA]
  · intro tbl htbl
    obtain ⟨t₀, ht₀, rfl⟩ :=
      (get_historical_data_result_ok finalize net security fromDate tillDate
        tbl).mp htbl
    rw [hA] at ht₀
    cases res' with
    | error e => simp [Except.map] at ht₀
    | ok rows =>
      simp only [Except.map, Except.ok.injEq] at ht₀
      subst ht₀
      have hdich := fetchLoop_ok_bound net (cursorTotal cd) _ p₀.data [0]
        reqs' rows le_rfl hlr
      by_cases htd : "TRADEDATE" ∈ p₀.columns <;> simpa [htd, hfin] using hdich

/-- Witness for the amended C2 at the Scenario B server: no warnings, and
any returned table satisfies the row-count dichotomy. -/
theorem c2_row_count_invariant_witness :
    (get_historical_data id scenarioBNet "IMOEX" "2024-01-01"
        "2024-12-31").warnings = [] ∧
    ∀ tbl,
      (get_historical_data id scenarioBNet "IMOEX" "2024-01-01"
          "2024-12-31").result = .ok tbl →
      cursorTotal [[0, 250, 100]] ≤ (tbl.rows.length : Int) ∨
        ((tbl.rows.length : Int) < cursorTotal [[0, 250, 100]] ∧
          pageDataAt scenarioBNet tbl.rows.length = []) :=
  c2_row_count_invariant id scenarioBNet "IMOEX" "2024-01-01" "2024-12-31"
    ⟨some ⟨["CLOSE"], List.replicate 100 ["r"]⟩, some [[0, 250, 100]]⟩
    ⟨["CLOSE"], List.replicate 100 ["r"]⟩ [[0, 250, 100]]
    (fun _ => rfl) rfl rfl
    (by intro h; have := congrArg List.length h; simp at this)
    rfl (by decide)

/-- Claim C4: transport failures propagate unchanged and abort the fetch.
(1) A failure on the first page request makes `get_historical_data` return
exactly that error, with the single request at offset 0, no warning, and no
table.  (2) A failure on any subsequent page request makes the pagination
loop return that error at once: the failing offset is the last request and no
further requests are issued.  (3) Conversely, whenever the fetch returns a
table, every page request it issued was answered successfully — accumulated
pages are never returned out of a failed call. -/
theorem c4_transport_error_propagation {E : Type}
    (finalize : List Row → List Row) (net : Nat → Except E Response)
    (security fromDate tillDate : String) (e : E) :
    (net 0 = .error e →
      get_historical_data finalize net security fromDate tillDate
        = ⟨[0], [], .error e⟩) ∧
    (∀ (total : Int) (fuel : Nat) (df : List Row) (reqs : List Nat),
      (df.length : Int) < total → net df.length = .error e →
      fetchLoop net total (fuel + 1) df reqs
        = (reqs ++ [df.length], .error e)) ∧
    (∀ tbl, (assembleHistory net security fromDate tillDate).result = .ok tbl →
      ∀ k ∈ (assembleHistory net security fromDate tillDate).requests,
        ∃ r, net k = .ok r) := by
  refine ⟨?_, ?_, ?_⟩
  · intro h
    simp [get_historical_data, assembleHistory, h, Except.map]
  · intro total fuel df reqs hg hnet
    simp [fetchLoop, if_pos hg, hnet]
  · intro tbl htbl k hk
    cases h0 : net 0 with
    | error e' =>
      simp only [assembleHistory, h0] at htbl
      simp at htbl
    | ok r =>
      cases hh : r.history with
      | none =>
        simp only [assembleHistory, h0, hh] at hk
        have hk0 : k = 0 := by simpa using hk
        exact ⟨r, hk0 ▸ h0⟩
      | some p =>
        by_cases hpd : p.data.isEmpty
        · simp only [assembleHistory, h0, hh, if_pos hpd] at hk
          have hk0 : k = 0 := by simpa using hk
          exact ⟨r, hk0 ▸ h0⟩
        · by_cases hcde : (r.cursor.getD [[0, 0, 0]]).isEmpty
          · simp only [assembleHistory, h0, hh, if_neg hpd, if_pos hcde] at hk
            have hk0 : k = 0 := by simpa using hk
            exact ⟨r, hk0 ▸ h0⟩
          · simp only [assembleHistory, h0, hh, if_neg hpd, if_neg hcde]
              at htbl hk
            rcases hlr : fetchLoop net (cursorTotal (r.cursor.getD [[0, 0, 0]]))
                ((cursorTotal (r.cursor.getD [[0, 0, 0]])
                  - (p.data.length : Int)).toNat) p.data [0]
              with ⟨reqs', res'⟩
            rw [hlr] at htbl hk
            cases res' with
            | error e' => simp [Except.map] at htbl
            | ok rows =>
              rcases fetchLoop_ok_requests net _ _ _ _ _ _ hlr k hk
                with hk0 | hok
              · have : k = 0 := by simpa using hk0
                exact ⟨r, this ▸ h0⟩
              · exact hok

set_option maxRecDepth 8000 in
/-- Witness for C4, Scenario E: a first-page failure yields exactly that
error with one request; a second-page failure (offset 100 after a 100-row
first page) aborts the loop at the failing request; the end-to-end fetch over
the Scenario E server returns the error with requests `[0, 100]` and no
table; and a fully successful fetch (Scenario B) had every issued request
answered. -/
theorem c4_transport_error_propagation_witness :
    (get_historical_data id errNet "IMOEX" "2024-01-01" "2024-02-01"
      = ⟨[0], [], .error ()⟩) ∧
    (fetchLoop scenarioENet 250 (4 + 1) (List.replicate 100 ["r"]) [0]
      = ([0, 100], .error ())) ∧
    (assembleHistory scenarioENet "IMOEX" "2024-01-01" "2024-02-01"
      = ⟨[0, 100], [], .error ()⟩) ∧
    (∀ k ∈ (assembleHistory scenarioBNet "IMOEX" "2024-01-01"
        "2024-12-31").requests, ∃ r, scenarioBNet k = .ok r) := by
  refine ⟨(c4_transport_error_propagation id errNet "IMOEX" "2024-01-01"
      "2024-02-01" ()).1 rfl, ?_, rfl, ?_⟩
  · have h := (c4_transport_error_propagation id scenarioENet "IMOEX"
        "2024-01-01" "2024-02-01" ()).2.1 250 4 (List.replicate 100 ["r"]) [0]
      (by decide) rfl
    simpa using h
  · exact (c4_transport_error_propagation id scenarioBNet "IMOEX" "2024-01-01"
        "2024-12-31" ()).2.2 ⟨["CLOSE"], List.replicate 250 ["r"]⟩ rfl

/-- Claim C7: when the first page is non-empty and the response has no
pagination-cursor section (the code falls back to `[[0, 0, 0]]`, whose
declared total is 0), or the cursor section is present and declares a total
of 0, the first page is treated as complete: the fetch returns exactly the
first page's columns and rows and issues no second request. -/
theorem c7_missing_or_zero_cursor_first_page_complete {E : Type}
    (finalize : List Row → List Row) (net : Nat → Except E Response)
    (security fromDate tillDate : String) (r₀ : Response) (p₀ : Page)
    (h₀ : net 0 = .ok r₀) (hh : r₀.history = some p₀) (hne : p₀.data ≠ [])
    (hcur : r₀.cursor = none ∨
      ∃ cd, r₀.cursor = some cd ∧ cursorTotal cd = 0) :
    assembleHistory net security fromDate tillDate
        = ⟨[0], [], .ok ⟨p₀.columns, p₀.data⟩⟩ ∧
      (get_historical_data finalize net security fromDate tillDate).requests
        = [0] := by
  have hpe : p₀.data.isEmpty = false := by
    cases hx : p₀.data with
    | nil => exact absurd hx hne
    | cons a l => rfl
  have hfz : ((0 : Int) - (p₀.data.length : Int)).toNat = 0 := by omega
  have e1 : assembleHistory net security fromDate tillDate
      = ⟨[0], [], .ok ⟨p₀.columns, p₀.data⟩⟩ := by
    rcases hcur with hcn | ⟨cd, hcs, hct⟩
    · simp only [assembleHistory, h₀, hh, hpe, Bool.false_eq_true, if_false,
        hcn, Option.getD_none, List.isEmpty_cons]
      have hct0 : cursorTotal [[0, 0, 0]] = 0 := rfl
      rw [hct0, hfz]
      simp [fetchLoop, Except.map]
    · cases hcd0 : cd with
      | nil =>
        subst hcd0
        simp [assembleHistory, h₀, hh, hpe, hcs]
      | cons c cs =>
        subst hcd0
        simp only [assembleHistory, h₀, hh, hpe, Bool.false_eq_true, if_false,
          hcs, Option.getD_some, List.isEmpty_cons]
        rw [hct, hfz]
        simp [fetchLoop, Except.map]
  exact ⟨e1, by rw [get_historical_data_requests, e1]⟩

/-- Witness for C7: Scenario D (no cursor section, two-row first page) and
the zero-declared-total variant both return exactly the first page with the
single request `[0]`. -/
theorem c7_missing_or_zero_cursor_first_page_complete_witness :
    (assembleHistory noCursorNet "IMOEX" "2024-01-01" "2024-02-01"
        = ⟨[0], [], .ok ⟨["CLOSE"], [["a"], ["b"]]⟩⟩ ∧
      (get_historical_data id noCursorNet "IMOEX" "2024-01-01"
          "2024-02-01").requests = [0]) ∧
    (assembleHistory zeroTotalNet "IMOEX" "2024-01-01" "2024-02-01"
        = ⟨[0], [], .ok ⟨["CLOSE"], [["a"], ["b"]]⟩⟩ ∧
      (get_historical_data id zeroTotalNet "IMOEX" "2024-01-01"
          "2024-02-01").requests = [0]) :=
  ⟨c7_missing_or_zero_cursor_first_page_complete id noCursorNet "IMOEX"
      "2024-01-01" "2024-02-01" ⟨some ⟨["CLOSE"], [["a"], ["b"]]⟩, none⟩
      ⟨["CLOSE"], [["a"], ["b"]]⟩ rfl rfl (by decide) (.inl rfl),
    c7_missing_or_zero_cursor_first_page_complete id zeroTotalNet "IMOEX"
      "2024-01-01" "2024-02-01"
      ⟨some ⟨["CLOSE"], [["a"], ["b"]]⟩, some [[0, 0, 100]]⟩
      ⟨["CLOSE"], [["a"], ["b"]]⟩ rfl rfl (by decide)
      (.inr ⟨[[0, 0, 100]], rfl, rfl⟩)⟩

/-- Claim C8: an omitted `from_date` defaults to the rendering of
`datetime.now() - timedelta(days=30)` and an omitted `till_date` to the
rendering of `datetime.now()`; a provided `datetime` value is converted via
`strftime('%Y-%m-%d')`, a provided string passes through verbatim (so a
string already in `YYYY-MM-DD` form stays canonical); and every
`strftime('%Y-%m-%d')` rendering is a canonical `YYYY-MM-DD` string. -/
theorem c8_date_defaults_and_normalization
    (now nowMinus30 : PyDatetime) (fromDate tillDate : Option DateArg)
    (interval : Int) (_hnow : now.valid) (_hm30 : nowMinus30.valid) :
    ((fromDate = none →
        (buildParams now nowMinus30 fromDate tillDate interval).fromP
          = strftimeYMD nowMinus30) ∧
      (tillDate = none →
        (buildParams now nowMinus30 fromDate tillDate interval).tillP
          = strftimeYMD now)) ∧
    ((∀ d, fromDate = some (.dt d) →
        (buildParams now nowMinus30 fromDate tillDate interval).fromP
          = strftimeYMD d) ∧
      (∀ d, tillDate = some (.dt d) →
        (buildParams now nowMinus30 fromDate tillDate interval).tillP
          = strftimeYMD d)) ∧
    ((∀ s, fromDate = some (.str s) →
        (buildParams now nowMinus30 fromDate tillDate interval).fromP = s) ∧
      (∀ s, tillDate = some (.str s) →
        (buildParams now nowMinus30 fromDate tillDate interval).tillP = s)) ∧
    (∀ d : PyDatetime, isYMDString (strftimeYMD d) = true) := by
  refine ⟨⟨?_, ?_⟩, ⟨?_, ?_⟩, ⟨?_, ?_⟩, fun d => isYMDString_strftimeYMD d⟩
  · intro h; subst h; rfl
  · intro h; subst h; rfl
  · intro d h; subst h; rfl
  · intro d h; subst h; rfl
  · intro s h; subst h; rfl
  · intro s h; subst h; rfl

/-- Witness for C8 at concrete dates: `from_date` given as the datetime
2024-01-01 (rendered `"2024-01-01"`), `till_date` omitted (defaults to the
rendering of now = 2026-10-12). -/
theorem c8_date_defaults_and_normalization_witness :
    (((some (DateArg.dt ⟨2024, 1, 1⟩) = none →
        (buildParams ⟨2026, 10, 12⟩ ⟨2026, 9, 12⟩
          (some (.dt ⟨2024, 1, 1⟩)) none 24).fromP
          = strftimeYMD ⟨2026, 9, 12⟩) ∧
      ((none : Option DateArg) = none →
        (buildParams ⟨2026, 10, 12⟩ ⟨2026, 9, 12⟩
          (some (.dt ⟨2024, 1, 1⟩)) none 24).tillP
          = strftimeYMD ⟨2026, 10, 12⟩)) ∧
    ((∀ d, some (DateArg.dt ⟨2024, 1, 1⟩) = some (.dt d) →
        (buildParams ⟨2026, 10, 12⟩ ⟨2026, 9, 12⟩
          (some (.dt ⟨2024, 1, 1⟩)) none 24).fromP = strftimeYMD d) ∧
      (∀ d, (none : Option DateArg) = some (.dt d) →
        (buildParams ⟨2026, 10, 12⟩ ⟨2026, 9, 12⟩
          (some (.dt ⟨2024, 1, 1⟩)) none 24).tillP = strftimeYMD d)) ∧
    ((∀ s, some (DateArg.dt ⟨2024, 1, 1⟩) = some (.str s) →
        (buildParams ⟨2026, 10, 12⟩ ⟨2026, 9, 12⟩
          (some (.dt ⟨2024, 1, 1⟩)) none 24).fromP = s) ∧
      (∀ s, (none : Option DateArg) = some (.str s) →
        (buildParams ⟨2026, 10, 12⟩ ⟨2026, 9, 12⟩
          (some (.dt ⟨2024, 1, 1⟩)) none 24).tillP = s)) ∧
    (∀ d : PyDatetime, isYMDString (strftimeYMD d) = true)) ∧
    (buildParams ⟨2026, 10, 12⟩ ⟨2026, 9, 12⟩
        (some (.dt ⟨2024, 1, 1⟩)) none 24).fromP = "2024-01-01" ∧
    (buildParams ⟨2026, 10, 12⟩ ⟨2026, 9, 12⟩
        (some (.dt ⟨2024, 1, 1⟩)) none 24).tillP = "2026-10-12" :=
  ⟨c8_date_defaults_and_normalization ⟨2026, 10, 12⟩ ⟨2026, 9, 12⟩
      (some (.dt ⟨2024, 1, 1⟩)) none 24 (by decide) (by decide),
    by decide, by decide⟩

/-- Claim C9: a fetch-level failure is caught at the per-index boundary — a
transport error reaching `download_index` yields `None` rather than a raise,
the batch loop records `(code, False)` for that index in the result mapping
while still processing every other requested code, and the failure is not
caught inside the fetch routine itself, whose result is the propagated
error. -/
theorem c9_batch_failure_isolation {E : Type}
    (codes : List String) (fetch : String → Except E Table) (c : String)
    (e : E) (net : Nat → Except E Response)
    (security fromDate tillDate : String) :
    (download_index (E := E) (.error e) = none) ∧
    (fetch c = .error e → c ∈ codes →
      (c, false) ∈ download_bond_indices codes fetch) ∧
    ((download_bond_indices codes fetch).map Prod.fst = codes) ∧
    (net 0 = .error e →
      (assembleHistory net security fromDate tillDate).result = .error e) := by
  refine ⟨rfl, ?_, ?_, ?_⟩
  · intro hf hc
    have hmem : (c, (download_index (fetch c)).isSome)
        ∈ download_bond_indices codes fetch :=
      List.mem_map_of_mem _ hc
    rw [hf] at hmem
    simpa [download_index] using hmem
  · simp only [download_bond_indices, List.map_map]
    induction codes with
    | nil => rfl
    | cons a t iht => simp [iht]
  · intro h
    simp [assembleHistory, h]

/-- Witness for C9: in the batch `["RGBI", "BAD", "RGBITR"]` where `"BAD"`
fails with a transport error, the result mapping records `("BAD", false)`
while both other indices are still downloaded and recorded as successes. -/
theorem c9_batch_failure_isolation_witness :
    (download_index (E := Unit) (.error ()) = none) ∧
    (("BAD", false) ∈ download_bond_indices ["RGBI", "BAD", "RGBITR"]
      batchFetch) ∧
    ((download_bond_indices ["RGBI", "BAD", "RGBITR"] batchFetch).map Prod.fst
      = ["RGBI", "BAD", "RGBITR"]) ∧
    ((assembleHistory errNet "IMOEX" "2024-01-01" "2024-02-01").result
      = .error ()) ∧
    (download_bond_indices ["RGBI", "BAD", "RGBITR"] batchFetch
      = [("RGBI", true), ("BAD", false), ("RGBITR", true)]) := by
  have h := c9_batch_failure_isolation ["RGBI", "BAD", "RGBITR"] batchFetch
    "BAD" () errNet "IMOEX" "2024-01-01" "2024-02-01"
  exact ⟨h.1, h.2.1 rfl (by decide), h.2.2.1, h.2.2.2 rfl, by decide⟩
